import Mathlib

/-!
Shallow embedding of the frailty risk predictor (src/app.py) for a
knee-osteoarthritis patient: feature encoding (app.py lines 91-117),
XGBoost margin calibration and label (lines 120-123), risk-tier branching
(lines 128-142), the SHAP class-index selection (lines 147-157), the
display-label table (lines 160-189) and the output flow around the
try/except SHAP block (lines 126-218).

Floating-point values are modelled as exact rationals (for everything the
script computes arithmetically) and as reals where the sigmoid calibration
`1 / (1 + exp(-margin))` is involved.
-/

namespace RiskPredictor

/-! ### Patient record: the form inputs (app.py lines 70-83) -/

inductive Gender | female | male
deriving DecidableEq, Repr

inductive YesNo | no | yes
deriving DecidableEq, Repr

inductive Activity | low | medium | high
deriving DecidableEq, Repr

inductive Complication | zero | one | twoPlus
deriving DecidableEq, Repr

inductive ADLStatus | unrestricted | restricted
deriving DecidableEq, Repr

inductive WalkSpeed | lt1 | ge1
deriving DecidableEq, Repr

inductive SitStand | lt12 | ge12
deriving DecidableEq, Repr

/-- The immutable patient record collected by the form (app.py lines 70-83).
Numeric fields are rationals (`age` and `platelet` are integer inputs in the
form, kept as naturals). -/
structure PatientRecord where
  gender : Gender
  age : ℕ
  smoking : YesNo
  bmi : ℚ
  fall : YesNo
  activity : Activity
  complication : Complication
  dailyActivity : ADLStatus
  walkSpeed : WalkSpeed
  sitStand : SitStand
  platelet : ℕ
  crea : ℚ
  cysc : ℚ
  wbc : ℚ

/-- The form's default values (app.py lines 70-83: first radio option and the
declared default of each number input). -/
def defaultRecord : PatientRecord :=
  { gender := .female, age := 60, smoking := .no, bmi := 24, fall := .no,
    activity := .low, complication := .zero, dailyActivity := .unrestricted,
    walkSpeed := .lt1, sitStand := .lt12, platelet := 200, crea := 70,
    cysc := 1, wbc := 6 }

/-! ### Feature encoder (app.py lines 91-117) -/

/-- The `input_data` dictionary (app.py lines 91-110): ordered association
list from feature key to encoded numeric value, in the source's key order. -/
def input_data (r : PatientRecord) : List (String × ℚ) :=
  [ ("gender", if r.gender = .female then 1 else 0),
    ("age", (r.age : ℚ)),
    ("smoking", if r.smoking = .yes then 1 else 0),
    ("bmi", r.bmi),
    ("fall", if r.fall = .yes then 1 else 0),
    ("PA_high", if r.activity = .high then 1 else 0),
    ("PA_medium", if r.activity = .medium then 1 else 0),
    ("PA_low", if r.activity = .low then 1 else 0),
    ("Complications_0", if r.complication = .zero then 1 else 0),
    ("Complications_1", if r.complication = .one then 1 else 0),
    ("Complications_2", if r.complication = .twoPlus then 1 else 0),
    ("ADL", if r.dailyActivity = .restricted then 1 else 0),
    ("Walking_speed", if r.walkSpeed = .ge1 then 1 else 0),
    ("FTSST", if r.sitStand = .ge12 then 1 else 0),
    ("bl_plt", (r.platelet : ℚ)),
    ("bl_crea", r.crea),
    ("bl_cysc", r.cysc),
    ("bl_wbc", r.wbc) ]

/-- The keys emitted by the encoder, in source order (app.py lines 91-110). -/
def encoderKeys : List String := (input_data defaultRecord).map Prod.fst

/-- The feature-vector construction (app.py lines 113-117): the DataFrame is
zero-filled for every schema feature missing from `input_data` and then
reindexed to exactly the schema's column order, so entry `i` of the result is
the `input_data` value of `schema[i]`, defaulting to `0`. -/
def encode (r : PatientRecord) (schema : List String) : List ℚ :=
  schema.map (fun f => ((input_data r).lookup f).getD 0)

/-- Error type the spec postulates for schema validation. -/
inductive SchemaMismatchError | emptySchema | duplicateNames
deriving DecidableEq, Repr

/-- The encoding step as a fallible computation: app.py lines 113-117 perform
no validation of the schema whatsoever (no emptiness or duplicate check), so
the computation always succeeds with the encoded vector. -/
def encodeE (r : PatientRecord) (schema : List String) :
    Except SchemaMismatchError (List ℚ) :=
  .ok (encode r schema)

/-- The encoded value of a single feature key: the `input_data` entry,
defaulting to `0` exactly as the zero-fill of app.py lines 114-116 does. -/
def featVal (r : PatientRecord) (f : String) : ℚ :=
  ((input_data r).lookup f).getD 0

/-! ### Risk stratifier (app.py lines 128-142) -/

inductive Tier | LOW | MEDIUM | HIGH
deriving DecidableEq, Repr

/-- Ordinal rank of a tier, LOW < MEDIUM < HIGH. -/
def tierRank : Tier → ℕ
  | .LOW => 0
  | .MEDIUM => 1
  | .HIGH => 2

/-- The risk-tier branching (app.py lines 128-142): `frail_prob > 0.8` is
HIGH, `elif frail_prob > 0.3` is MEDIUM, otherwise LOW. Stated over any
linear ordered field so it can be applied both to exact rationals and to the
real-valued calibrated probability. -/
def stratify {α : Type} [LinearOrderedField α]
    [DecidableRel (fun a b : α => a < b)] (p : α) : Tier :=
  if p > 8/10 then .HIGH else if p > 3/10 then .MEDIUM else .LOW

/-- The static recommendation bundle printed under each tier banner
(app.py lines 130-132, 135-137, 140-142). -/
def recommendations : Tier → List String
  | .HIGH => ["每周随访监测", "必须物理治疗干预", "全面评估并发症"]
  | .MEDIUM => ["每3-6个月评估一次", "建议适度运动计划", "基础营养评估"]
  | .LOW => ["每年体检一次", "保持健康生活方式", "预防性健康指导"]

/-! ### Inference: margin calibration and predicted label (app.py lines 120-123) -/

open Classical in
/-- The calibrated probability (app.py line 122):
`frail_prob = 1 / (1 + np.exp(-pred_logodds))`, the sigmoid of the raw
margin, applied exactly once. -/
noncomputable def frail_prob (pred_logodds : ℝ) : ℝ :=
  1 / (1 + Real.exp (-pred_logodds))

open Classical in
/-- The predicted label (app.py line 123):
`pred_label = 1 if frail_prob > 0.5 else 0`. -/
noncomputable def pred_label (pred_logodds : ℝ) : ℕ :=
  if frail_prob pred_logodds > 5/10 then 1 else 0

/-! ### SHAP class-index selection (app.py lines 147-157) -/

/-- Shape of `explainer.expected_value`: either a plain scalar or a
class-indexed array; for the binary case the array holds the class-0 and
class-1 base values. -/
inductive ExpectedValue
  | scalar (v : ℚ)
  | perClass (v0 v1 : ℚ)

/-- Shape of `explainer.shap_values(dmatrix)`: either a plain matrix of rows
of per-feature contributions, or a class-indexed list of such matrices
(class 0 and class 1 for the binary case). -/
inductive ShapValues
  | single (rows : List (List ℚ))
  | perClass (c0 c1 : List (List ℚ))

/-- The base-value selection (app.py lines 148-152): when
`expected_value` is an array the code takes `expected_value[1]`, the fixed
positive-class entry; otherwise the scalar itself. -/
def select_expected_value : ExpectedValue → ℚ
  | .scalar v => v
  | .perClass _ v1 => v1

/-- The contribution-row selection (app.py lines 154-157): when
`shap_values` is a list the code takes `shap_values[1][0]`, the first row of
the fixed class-1 matrix; otherwise the first row `shap_values[0]`. -/
def select_shap_value : ShapValues → List ℚ
  | .single rows => rows.getD 0 []
  | .perClass _ c1 => c1.getD 0 []

/-! ### Display-label table (app.py lines 159-189) -/

/-- One-decimal rendering of a rational, modelling the script's `:.1f`
formatting of its float inputs. -/
def fmt1 (q : ℚ) : String :=
  let n : ℤ := ⌊q * 10⌋
  toString (n / 10) ++ "." ++ toString (n % 10)

/-- The patient-specific BMI display label the table stores under key
`bmi2015` (app.py line 162): `f"BMI={bmi:.1f}"`. -/
def bmiLabel (r : PatientRecord) : String :=
  "BMI=" ++ fmt1 r.bmi

/-- The `feature_names_mapping` display-label table (app.py lines 160-179):
an association list from feature key to patient-specific label, with the
source's keys — note the BMI entry is keyed `bmi2015`, not `bmi`. -/
def feature_names_mapping (r : PatientRecord) : List (String × String) :=
  [ ("age", "Age=" ++ toString r.age),
    ("bmi2015", bmiLabel r),
    ("bl_wbc", "WBC=" ++ fmt1 r.wbc),
    ("bl_crea", "Crea=" ++ fmt1 r.crea),
    ("bl_plt", "Plt=" ++ toString r.platelet),
    ("bl_cysc", "CysC=" ++ fmt1 r.cysc),
    ("Complications_0", if r.complication = .zero then "无并发症" else ""),
    ("Complications_1", if r.complication = .one then "有1个并发症" else ""),
    ("Complications_2", if r.complication = .twoPlus then "≥2个并发症" else ""),
    ("FTSST", if r.sitStand = .ge12 then "FTSST≥12s" else "FTSST<12s"),
    ("Walking_speed",
      if r.walkSpeed = .ge1 then "WalkSpeed≥1m/s" else "WalkSpeed<1m/s"),
    ("fall", if r.fall = .yes then "跌倒史: 是" else "跌倒史: 否"),
    ("ADL", if r.dailyActivity = .restricted then "ADL受限" else "ADL正常"),
    ("gender", if r.gender = .female then "性别: 女" else "性别: 男"),
    ("PA_high", if r.activity = .high then "体力活动: 高" else ""),
    ("PA_medium", if r.activity = .medium then "体力活动: 中" else ""),
    ("PA_low", if r.activity = .low then "体力活动: 低" else ""),
    ("smoking", if r.smoking = .yes then "吸烟: 是" else "吸烟: 否") ]

/-- The per-column display label (app.py lines 184-189):
`feature_names_mapping.get(col, col)` — the raw identifier is the fallback —
and an empty mapped name is kept as an empty placeholder. -/
def displayLabel (r : PatientRecord) (col : String) : String :=
  let m := ((feature_names_mapping r).lookup col).getD col
  if m = "" then "" else m

/-- The `display_feature_names` list (app.py lines 183-189), one label per
schema column in order. -/
def display_feature_names (r : PatientRecord) (cols : List String) :
    List String :=
  cols.map (displayLabel r)

/-! ### Output flow around the SHAP try/except block (app.py lines 126-218) -/

/-- The user-visible outputs the submitted branch emits, in order
(app.py lines 126-218), with the payloads that matter for the claims. -/
inductive Output
  | probMsg (p : ℝ)
  | tierBanner (t : Tier)
  | recLine (s : String)
  | shapFailMsg (e : String)
  | shapFailWarning
  | legend

/-- The tier banner and its recommendation bullets (app.py lines 128-142). -/
def tierOutputs (t : Tier) : List Output :=
  .tierBanner t :: (recommendations t).map .recLine

open Classical in
/-- The primary outputs produced before the SHAP block (app.py lines
126-142): the probability message, then the tier banner and its
recommendations, branching on `frail_prob` exactly as the source does. -/
noncomputable def primaryOutputs (pred_logodds : ℝ) : List Output :=
  .probMsg (frail_prob pred_logodds)
    :: tierOutputs (stratify (frail_prob pred_logodds))

/-- The whole submitted branch (app.py lines 126-218): the primary outputs,
then the try/except SHAP block — whose body calls the external SHAP and
matplotlib libraries, modelled as an `Except` argument: on success its
outputs, on exception `e` the error message
`st.error(f"SHAP可视化失败: ...")` and the refresh warning — and finally the
legend markdown, emitted outside the try. -/
noncomputable def renderOutputs (pred_logodds : ℝ)
    (shapStep : Except String (List Output)) : List Output :=
  primaryOutputs pred_logodds ++
    (match shapStep with
      | .ok outs => outs
      | .error e => [.shapFailMsg e, .shapFailWarning]) ++
    [.legend]

/-! ### Theorems -/

/-- C2: for every probability `p` in `[0,1]` the stratifier (app.py lines
128-142) assigns HIGH exactly when `p > 0.8`, MEDIUM exactly when
`0.3 < p ≤ 0.8`, LOW exactly when `p ≤ 0.3`; in particular
`stratify 0.8 = MEDIUM` and `stratify 0.3 = LOW`, and the assigned tier is
monotone in `p`. -/
theorem c2_stratify_boundaries (p : ℚ) (h0 : 0 ≤ p) (h1 : p ≤ 1) :
    (stratify p = Tier.HIGH ↔ 8/10 < p) ∧
    (stratify p = Tier.MEDIUM ↔ 3/10 < p ∧ p ≤ 8/10) ∧
    (stratify p = Tier.LOW ↔ p ≤ 3/10) ∧
    stratify ((8 : ℚ)/10) = Tier.MEDIUM ∧
    stratify ((3 : ℚ)/10) = Tier.LOW ∧
    (∀ q : ℚ, p ≤ q → tierRank (stratify p) ≤ tierRank (stratify q)) := by
  refine ⟨?_, ?_, ?_, by simp only [stratify]; norm_num,
    by simp only [stratify]; norm_num, ?_⟩
  · unfold stratify
    split_ifs with hA hB <;> simp_all <;> linarith
  · unfold stratify
    split_ifs with hA hB <;> simp_all <;> constructor <;> linarith
  · unfold stratify
    split_ifs with hA hB <;> simp_all <;> linarith
  · intro q hq
    unfold stratify
    split_ifs with hA hB hC hD <;> simp [tierRank] <;> linarith

/-- Witness for C2, at the two boundary points named by the claim. -/
theorem c2_witness :
    stratify ((8 : ℚ)/10) = Tier.MEDIUM ∧ stratify ((3 : ℚ)/10) = Tier.LOW :=
  ⟨(c2_stratify_boundaries (8/10) (by norm_num) (by norm_num)).2.2.2.1,
   (c2_stratify_boundaries (8/10) (by norm_num) (by norm_num)).2.2.2.2.1⟩

/-- C4: the inference step (app.py lines 120-123) computes
`probability = 1 / (1 + exp(-margin))` from the raw margin, the sigmoid
applied exactly once, and `predicted_label` is `1` exactly when the
probability exceeds `0.5` and `0` otherwise. -/
theorem c4_sigmoid_calibration (m : ℝ) :
    frail_prob m = 1 / (1 + Real.exp (-m)) ∧
    (pred_label m = 1 ↔ frail_prob m > 5/10) ∧
    (pred_label m = 0 ↔ ¬ frail_prob m > 5/10) ∧
    (pred_label m = 0 ∨ pred_label m = 1) := by
  refine ⟨rfl, ?_, ?_, ?_⟩ <;> unfold pred_label <;>
    split_ifs with h <;> simp [h]

/-- C1 counterexample: an evaluation with `predicted_label = 0` (margin `-1`
gives a probability below one half) in which the class-indexed selection of
app.py lines 150 and 155 still picks the class-1 entry, not the class-0
entry: the claim that index `predicted_label` is selected is false. -/
theorem c1_counterexample :
    pred_label (-1) = 0 ∧
    select_expected_value (.perClass 3 7) = 7 ∧
    select_expected_value (.perClass 3 7) ≠ 3 ∧
    select_shap_value (.perClass [[1]] [[2]]) = [2] ∧
    select_shap_value (.perClass [[1]] [[2]]) ≠ [1] := by
  refine ⟨?_, rfl, by decide, rfl, by decide⟩
  have h2 : (2 : ℝ) ≤ Real.exp 1 := by
    have := Real.add_one_le_exp (1 : ℝ)
    linarith
  have hpos : (0 : ℝ) < 1 + Real.exp 1 := by positivity
  have hb : frail_prob (-1) ≤ 1/3 := by
    unfold frail_prob
    rw [neg_neg, div_le_div_iff hpos (by norm_num)]
    linarith
  unfold pred_label
  rw [if_neg]
  intro hgt
  have : (5 : ℝ)/10 < 1/3 := lt_of_lt_of_le hgt hb
  linarith

/-- C1 amended: when the explainer exposes class-indexed baselines or
contribution arrays, app.py lines 150 and 155 select the fixed class-1
(positive-class) entry — `expected_value[1]` and `shap_values[1][0]` —
regardless of the predicted label, so with `predicted_label = 0` the class-1
pair is still the one selected. -/
theorem c1_fixed_positive_class (b0 b1 : ℚ) (c0 c1 : List (List ℚ)) :
    select_expected_value (.perClass b0 b1) = b1 ∧
    select_shap_value (.perClass c0 c1) = c1.getD 0 [] :=
  ⟨rfl, rfl⟩

/-- C6 counterexample: app.py lines 113-117 perform no schema validation at
all, so encoding an empty schema or a schema with duplicate names succeeds
instead of failing with `SchemaMismatchError`. -/
theorem c6_counterexample :
    encodeE defaultRecord [] = .ok [] ∧
    encodeE defaultRecord ["age", "age"] = .ok [60, 60] := by
  constructor
  · rfl
  · show Except.ok (encode defaultRecord ["age", "age"]) = _
    have : encode defaultRecord ["age", "age"] = [60, 60] := by
      show [((60 : ℕ) : ℚ), ((60 : ℕ) : ℚ)] = [60, 60]
      norm_num
    rw [this]

/-- C6 amended: encoding never fails — for every record and every schema,
empty or duplicate-laden included, the encoder returns a vector of length
`len(schema)` and no `SchemaMismatchError` is ever raised. -/
theorem c6_no_schema_validation (r : PatientRecord) (s : List String) :
    ∃ v, encodeE r s = .ok v ∧ v.length = s.length :=
  ⟨encode r s, rfl, by simp [encode]⟩

/-- C3: the encoder's output (app.py lines 113-117) has exactly one entry
per schema feature, entry `i` is the computed value of `schema[i]` (column
order is exactly the schema's order), and a schema entry with no computed
key in `input_data` is set to `0`. -/
theorem c3_encode_schema_alignment (r : PatientRecord) (schema : List String) :
    (encode r schema).length = schema.length ∧
    (∀ i : ℕ, (encode r schema).get? i
        = (schema.get? i).map (fun f => ((input_data r).lookup f).getD 0)) ∧
    (∀ i : ℕ, ∀ f, schema.get? i = some f →
        (input_data r).lookup f = none → (encode r schema).get? i = some 0) := by
  refine ⟨by simp [encode], fun i => ?_, fun i f h1 h2 => ?_⟩
  · simp [encode, List.get?_map]
  · simp only [encode, List.get?_map, h1, h2, Option.map_some',
      Option.getD_none]

/-- Witness for C3: a two-entry schema whose second feature is unknown to
the encoder gets value `0` at position 1. -/
theorem c3_witness :
    (encode defaultRecord ["age", "mystery"]).get? 1 = some 0 :=
  (c3_encode_schema_alignment defaultRecord ["age", "mystery"]).2.2 1 "mystery"
    rfl (by decide)

/-- C5: the encoded one-hot groups are mutually exclusive — the three
physical-activity indicators `PA_low`, `PA_medium`, `PA_high` are each 0 or
1 and exactly one of them is 1, and likewise for `Complications_0`,
`Complications_1`, `Complications_2` (app.py lines 97-102). -/
theorem c5_onehot_exclusive (r : PatientRecord) :
    ((featVal r "PA_low" = 1 ∧ featVal r "PA_medium" = 0 ∧
        featVal r "PA_high" = 0) ∨
     (featVal r "PA_low" = 0 ∧ featVal r "PA_medium" = 1 ∧
        featVal r "PA_high" = 0) ∨
     (featVal r "PA_low" = 0 ∧ featVal r "PA_medium" = 0 ∧
        featVal r "PA_high" = 1)) ∧
    ((featVal r "Complications_0" = 1 ∧ featVal r "Complications_1" = 0 ∧
        featVal r "Complications_2" = 0) ∨
     (featVal r "Complications_0" = 0 ∧ featVal r "Complications_1" = 1 ∧
        featVal r "Complications_2" = 0) ∨
     (featVal r "Complications_0" = 0 ∧ featVal r "Complications_1" = 0 ∧
        featVal r "Complications_2" = 1)) := by
  have hl : featVal r "PA_low" = (if r.activity = .low then 1 else 0) := rfl
  have hm : featVal r "PA_medium" = (if r.activity = .medium then 1 else 0) :=
    rfl
  have hh : featVal r "PA_high" = (if r.activity = .high then 1 else 0) := rfl
  have h0 : featVal r "Complications_0"
      = (if r.complication = .zero then 1 else 0) := rfl
  have h1 : featVal r "Complications_1"
      = (if r.complication = .one then 1 else 0) := rfl
  have h2 : featVal r "Complications_2"
      = (if r.complication = .twoPlus then 1 else 0) := rfl
  constructor
  · simp only [hl, hm, hh]
    cases r.activity <;> simp
  · simp only [h0, h1, h2]
    cases r.complication <;> simp

/-- C7: when the SHAP block fails (app.py lines 145-212), the primary
outputs computed before it — the probability message, the tier banner and
every recommendation line — are produced unchanged (identical to the
successful run up to the attribution block), and a clear
explanation-unavailable error message is surfaced: an attribution failure
never blocks the primary probability/risk output. -/
theorem c7_attribution_failure_isolated (m : ℝ) (e : String)
    (outs : List Output) :
    (renderOutputs m (.error e)).take (primaryOutputs m).length
        = primaryOutputs m ∧
    (renderOutputs m (.ok outs)).take (primaryOutputs m).length
        = primaryOutputs m ∧
    Output.probMsg (frail_prob m) ∈ renderOutputs m (.error e) ∧
    Output.tierBanner (stratify (frail_prob m)) ∈ renderOutputs m (.error e) ∧
    (∀ s ∈ recommendations (stratify (frail_prob m)),
        Output.recLine s ∈ renderOutputs m (.error e)) ∧
    Output.shapFailMsg e ∈ renderOutputs m (.error e) := by
  have htake : ∀ sh : Except String (List Output),
      (renderOutputs m sh).take (primaryOutputs m).length = primaryOutputs m := by
    intro sh
    unfold renderOutputs
    rw [List.append_assoc, List.take_left]
  refine ⟨htake _, htake _, ?_, ?_, fun s hs => ?_, ?_⟩
  · simp [renderOutputs, primaryOutputs]
  · simp [renderOutputs, primaryOutputs, tierOutputs]
  · have h1 : Output.recLine s ∈ primaryOutputs m := by
      unfold primaryOutputs tierOutputs
      exact List.mem_cons_of_mem _
        (List.mem_cons_of_mem _ (List.mem_map_of_mem _ hs))
    unfold renderOutputs
    exact List.mem_append_left _ (List.mem_append_left _ h1)
  · simp [renderOutputs]

/-- Witness for C7, at margin 0 and a concrete failure message: the failure
message is surfaced and the probability message still appears. -/
theorem c7_witness :
    Output.shapFailMsg "boom" ∈ renderOutputs 0 (.error "boom") ∧
    Output.probMsg (frail_prob 0) ∈ renderOutputs 0 (.error "boom") :=
  ⟨(c7_attribution_failure_isolated 0 "boom" []).2.2.2.2.2,
   (c7_attribution_failure_isolated 0 "boom" []).2.2.1⟩

/-- C9: the encoder's boolean polarities (app.py lines 92-105): gender maps
female to 1 and male to 0; smoking, fall history and ADL-limited map yes to
1 and no to 0; `Walking_speed` maps at-least-1-m/s to 1 and below-1-m/s to
0; `FTSST` maps at-least-12-s to 1 and below-12-s to 0. -/
theorem c9_boolean_polarities (r : PatientRecord) :
    (featVal r "gender" = 1 ↔ r.gender = .female) ∧
    (featVal r "gender" = 0 ↔ r.gender = .male) ∧
    (featVal r "smoking" = 1 ↔ r.smoking = .yes) ∧
    (featVal r "smoking" = 0 ↔ r.smoking = .no) ∧
    (featVal r "fall" = 1 ↔ r.fall = .yes) ∧
    (featVal r "fall" = 0 ↔ r.fall = .no) ∧
    (featVal r "ADL" = 1 ↔ r.dailyActivity = .restricted) ∧
    (featVal r "ADL" = 0 ↔ r.dailyActivity = .unrestricted) ∧
    (featVal r "Walking_speed" = 1 ↔ r.walkSpeed = .ge1) ∧
    (featVal r "Walking_speed" = 0 ↔ r.walkSpeed = .lt1) ∧
    (featVal r "FTSST" = 1 ↔ r.sitStand = .ge12) ∧
    (featVal r "FTSST" = 0 ↔ r.sitStand = .lt12) := by
  have hg : featVal r "gender" = (if r.gender = .female then 1 else 0) := rfl
  have hs : featVal r "smoking" = (if r.smoking = .yes then 1 else 0) := rfl
  have hf : featVal r "fall" = (if r.fall = .yes then 1 else 0) := rfl
  have ha : featVal r "ADL"
      = (if r.dailyActivity = .restricted then 1 else 0) := rfl
  have hw : featVal r "Walking_speed"
      = (if r.walkSpeed = .ge1 then 1 else 0) := rfl
  have ht : featVal r "FTSST" = (if r.sitStand = .ge12 then 1 else 0) := rfl
  simp only [hg, hs, hf, ha, hw, ht]
  cases r.gender <;> cases r.smoking <;> cases r.fall <;>
    cases r.dailyActivity <;> cases r.walkSpeed <;> cases r.sitStand <;>
    simp

/-- The BMI label always starts with the character `B`. -/
lemma head_bmiLabel (r : PatientRecord) : (bmiLabel r).data.head? = some 'B' := by
  show (("BMI=" : String) ++ fmt1 r.bmi).data.head? = some 'B'
  rw [String.data_append]
  rfl

/-- A string whose first character is not `B` is not the BMI label. -/
lemma ne_bmiLabel (r : PatientRecord) (s : String)
    (h : s.data.head? ≠ some 'B') : s ≠ bmiLabel r :=
  fun e => h (by rw [e]; exact head_bmiLabel r)

/-- First character of an append whose left part starts with `c`. -/
lemma head_append (p x : String) (c : Char) (l : List Char)
    (hp : p.data = c :: l) : (p ++ x).data.head? = some c := by
  rw [String.data_append, hp]
  rfl

/-- A two-branch string value avoids the BMI label if both branches do. -/
lemma ite_ne_bmiLabel (r : PatientRecord) (c : Prop) [Decidable c]
    (s1 s2 : String) (h1 : s1 ≠ bmiLabel r) (h2 : s2 ≠ bmiLabel r) :
    (if c then s1 else s2) ≠ bmiLabel r := by
  split <;> assumption

/-- The displayed label for a column is never the BMI label when the looked
up (or fallback) value is not. -/
lemma displayLabel_ne_bmi (r : PatientRecord) (k : String)
    (hv : ((feature_names_mapping r).lookup k).getD k ≠ bmiLabel r) :
    displayLabel r k ≠ bmiLabel r := by
  unfold displayLabel
  dsimp only
  split
  · exact ne_bmiLabel r "" (by decide)
  · exact hv

/-- No column the encoder can emit ever displays as the BMI label. -/
lemma encoder_cols_ne_bmiLabel (r : PatientRecord) :
    ∀ f ∈ encoderKeys, displayLabel r f ≠ bmiLabel r := by
  intro f hf
  have hcases : f = "gender" ∨ f = "age" ∨ f = "smoking" ∨ f = "bmi" ∨
      f = "fall" ∨ f = "PA_high" ∨ f = "PA_medium" ∨ f = "PA_low" ∨
      f = "Complications_0" ∨ f = "Complications_1" ∨
      f = "Complications_2" ∨ f = "ADL" ∨ f = "Walking_speed" ∨
      f = "FTSST" ∨ f = "bl_plt" ∨ f = "bl_crea" ∨ f = "bl_cysc" ∨
      f = "bl_wbc" := by
    simpa [encoderKeys, input_data, defaultRecord] using hf
  have hB : ∀ s : String, s.data.head? ≠ some 'B' → s ≠ bmiLabel r :=
    ne_bmiLabel r
  rcases hcases with rfl | rfl | rfl | rfl | rfl | rfl | rfl | rfl | rfl |
      rfl | rfl | rfl | rfl | rfl | rfl | rfl | rfl | rfl <;>
    apply displayLabel_ne_bmi
  · show Option.getD (some (if r.gender = .female then "性别: 女"
        else "性别: 男")) _ ≠ _
    rw [Option.getD_some]
    exact ite_ne_bmiLabel r _ _ _ (hB _ (by decide)) (hB _ (by decide))
  · show Option.getD (some ("Age=" ++ toString r.age)) _ ≠ _
    rw [Option.getD_some]
    exact hB _ (by rw [head_append "Age=" _ 'A' _ rfl]; decide)
  · show Option.getD (some (if r.smoking = .yes then "吸烟: 是"
        else "吸烟: 否")) _ ≠ _
    rw [Option.getD_some]
    exact ite_ne_bmiLabel r _ _ _ (hB _ (by decide)) (hB _ (by decide))
  · show Option.getD none "bmi" ≠ _
    rw [Option.getD_none]
    exact hB _ (by decide)
  · show Option.getD (some (if r.fall = .yes then "跌倒史: 是"
        else "跌倒史: 否")) _ ≠ _
    rw [Option.getD_some]
    exact ite_ne_bmiLabel r _ _ _ (hB _ (by decide)) (hB _ (by decide))
  · show Option.getD (some (if r.activity = .high then "体力活动: 高"
        else "")) _ ≠ _
    rw [Option.getD_some]
    exact ite_ne_bmiLabel r _ _ _ (hB _ (by decide)) (hB _ (by decide))
  · show Option.getD (some (if r.activity = .medium then "体力活动: 中"
        else "")) _ ≠ _
    rw [Option.getD_some]
    exact ite_ne_bmiLabel r _ _ _ (hB _ (by decide)) (hB _ (by decide))
  · show Option.getD (some (if r.activity = .low then "体力活动: 低"
        else "")) _ ≠ _
    rw [Option.getD_some]
    exact ite_ne_bmiLabel r _ _ _ (hB _ (by decide)) (hB _ (by decide))
  · show Option.getD (some (if r.complication = .zero then "无并发症"
        else "")) _ ≠ _
    rw [Option.getD_some]
    exact ite_ne_bmiLabel r _ _ _ (hB _ (by decide)) (hB _ (by decide))
  · show Option.getD (some (if r.complication = .one then "有1个并发症"
        else "")) _ ≠ _
    rw [Option.getD_some]
    exact ite_ne_bmiLabel r _ _ _ (hB _ (by decide)) (hB _ (by decide))
  · show Option.getD (some (if r.complication = .twoPlus then "≥2个并发症"
        else "")) _ ≠ _
    rw [Option.getD_some]
    exact ite_ne_bmiLabel r _ _ _ (hB _ (by decide)) (hB _ (by decide))
  · show Option.getD (some (if r.dailyActivity = .restricted then "ADL受限"
        else "ADL正常")) _ ≠ _
    rw [Option.getD_some]
    exact ite_ne_bmiLabel r _ _ _ (hB _ (by decide)) (hB _ (by decide))
  · show Option.getD (some (if r.walkSpeed = .ge1 then "WalkSpeed≥1m/s"
        else "WalkSpeed<1m/s")) _ ≠ _
    rw [Option.getD_some]
    exact ite_ne_bmiLabel r _ _ _ (hB _ (by decide)) (hB _ (by decide))
  · show Option.getD (some (if r.sitStand = .ge12 then "FTSST≥12s"
        else "FTSST<12s")) _ ≠ _
    rw [Option.getD_some]
    exact ite_ne_bmiLabel r _ _ _ (hB _ (by decide)) (hB _ (by decide))
  · show Option.getD (some ("Plt=" ++ toString r.platelet)) _ ≠ _
    rw [Option.getD_some]
    exact hB _ (by rw [head_append "Plt=" _ 'P' _ rfl]; decide)
  · show Option.getD (some ("Crea=" ++ fmt1 r.crea)) _ ≠ _
    rw [Option.getD_some]
    exact hB _ (by rw [head_append "Crea=" _ 'C' _ rfl]; decide)
  · show Option.getD (some ("CysC=" ++ fmt1 r.cysc)) _ ≠ _
    rw [Option.getD_some]
    exact hB _ (by rw [head_append "CysC=" _ 'C' _ rfl]; decide)
  · show Option.getD (some ("WBC=" ++ fmt1 r.wbc)) _ ≠ _
    rw [Option.getD_some]
    exact hB _ (by rw [head_append "WBC=" _ 'W' _ rfl]; decide)

/-- C10: the display-label table (app.py lines 160-179) keys BMI as
`bmi2015` while the encoder emits feature key `bmi` (app.py line 95); for a
schema drawn from the encoder's keys naming the BMI feature `bmi`, the BMI
column's display label falls back to the raw identifier `bmi` and the
patient-specific label `BMI=<value>` is never produced. -/
theorem c10_bmi_label_fallback (r : PatientRecord) (schema : List String)
    (hsub : ∀ f ∈ schema, f ∈ encoderKeys) (hbmi : "bmi" ∈ schema) :
    (feature_names_mapping r).lookup "bmi2015" = some (bmiLabel r) ∧
    (feature_names_mapping r).lookup "bmi" = none ∧
    displayLabel r "bmi" = "bmi" ∧
    "bmi" ∈ display_feature_names r schema ∧
    bmiLabel r ∉ display_feature_names r schema := by
  refine ⟨rfl, rfl, rfl, ?_, ?_⟩
  · have : displayLabel r "bmi" = "bmi" := rfl
    exact this ▸ List.mem_map_of_mem (displayLabel r) hbmi
  · intro hmem
    rcases List.mem_map.mp hmem with ⟨f, hf, he⟩
    exact encoder_cols_ne_bmiLabel r f (hsub f hf) he

/-- Witness for C10, at the default record with the encoder's own key list
as schema. -/
theorem c10_witness :
    displayLabel defaultRecord "bmi" = "bmi" ∧
    bmiLabel defaultRecord ∉ display_feature_names defaultRecord encoderKeys :=
  ⟨(c10_bmi_label_fallback defaultRecord encoderKeys (fun _ hf => hf)
      (by decide)).2.2.1,
   (c10_bmi_label_fallback defaultRecord encoderKeys (fun _ hf => hf)
      (by decide)).2.2.2.2⟩

end RiskPredictor
